/-
Verification of the signal-generation engine (Market Analyzer, ML Predictor,
Signal Generator) of the Mhstradingbot repository.

The Python source is shallowly embedded over ℚ:
* floats become rationals; the square root inside `numpy.std` is `ratSqrt`
  (exact at 0 and at perfect squares, which is all the theorems evaluate);
* Python dicts keyed by currency pair become association lists
  `List (String × _)` with `dictSet` / `List.lookup`;
* dict payloads become structures; keys that some produced dict omits become
  `Option` fields (`none` = key absent), and every read through
  `d.get(key, default)` becomes `(field).getD default`;
* all `random.*` draws become explicit parameters (bundled per component);
* `datetime.now()` becomes an explicit rational timestamp in seconds;
* a `ZeroDivisionError` that the source catches is modelled by an explicit
  test on the divisor selecting the `except` fallback value.
-/
import Mathlib

/-! ### Shared helpers -/

/-- Arithmetic mean of a list of rationals (`numpy.mean`).  Division by zero
only arises for the empty list, which no caller in the source reaches. -/
def listMean (l : List ℚ) : ℚ := l.sum / l.length

/-- Population variance of a list of rationals (`numpy.var`, and the square of
`numpy.std`). -/
def listVar (l : List ℚ) : ℚ :=
  (l.map (fun x => (x - listMean l) ^ 2)).sum / l.length

/-- Rational square root used to embed `numpy.std`: for `q = a / b` in lowest
terms it returns `Nat.sqrt (a * b) / b`, which is exact at `0` and at perfect
squares.  The theorems only ever evaluate it at variance `0`. -/
def ratSqrt (q : ℚ) : ℚ := (Nat.sqrt (q.num.toNat * q.den) : ℚ) / (q.den : ℚ)

/-- `price_data[-n:]` — the last `n` elements of a list. -/
def lastN (n : ℕ) (l : List ℚ) : List ℚ := l.drop (l.length - n)

/-- Python `round(x, 1)`: round to one decimal place.  (Python ties round to
even, the Mathlib `round` rounds them up; the theorems only use bounds that hold
for either convention.) -/
def round1 (x : ℚ) : ℚ := (round (10 * x) : ℤ) / 10

/-- Python dict assignment `d[k] = v` on an association list: any previous
binding for `k` is dropped and the new one is put in front. -/
def dictSet {α : Type} (k : String) (v : α) (l : List (String × α)) :
    List (String × α) :=
  (k, v) :: l.filter (fun p => p.1 ≠ k)

/-- One-decimal rendering of a nonnegative rational, standing in for Python
float formatting with `:.1f` inside the narrative strings. -/
def fmt1 (q : ℚ) : String :=
  let n := round (10 * q)
  toString (n / 10) ++ "." ++ toString (n.natAbs % 10)

/-! ### Market snapshot (`market_data` dict)

`price` is accessed by direct subscripting and is required by the spec to
be present; the remaining keys are read through `.get` with per-call-site
defaults, so they are `Option` fields here. -/

structure MarketData where
  price : ℚ
  price_history : Option (List ℚ)
  volume : Option ℚ
  volume_history : Option (List ℚ)
  price_change_24h : Option ℚ
  deriving DecidableEq

/-! ### Analyzer payload structures (sub-analysis dicts) -/

structure Technical where
  ma20 : ℚ
  ma50 : ℚ
  ma_signal : String
  rsi : ℚ
  rsi_signal : String
  macd_signal : String
  bb_position : ℚ
  bb_signal : String
  deriving DecidableEq

structure SupportResistance where
  resistance : ℚ
  support : ℚ
  resistance_distance : ℚ
  support_distance : ℚ
  near_resistance : Bool
  near_support : Bool
  deriving DecidableEq

structure Sentiment where
  news_sentiment : Option ℚ
  fear_greed_index : Option ℚ
  economic_impact : Option String
  sentiment_score : Option ℚ
  sentiment_label : String
  deriving DecidableEq

structure VolumeAnalysis where
  current_volume : Option ℚ
  average_volume : Option ℚ
  volume_trend : String
  volume_strength : ℚ
  high_volume : Option Bool
  deriving DecidableEq

structure Patterns where
  detected_pattern : Option String
  pattern_strength : Option ℚ
  pattern_signal : String
  pattern_confidence : Option ℚ
  deriving DecidableEq

/-- The analysis dict as it stands just before `market_score` is attached
(`_calculate_market_score` is applied to exactly this). -/
structure AnalysisCore where
  technical : Option Technical
  trend : String
  trend_strength : ℚ
  volatility : ℚ
  support_resistance : Option SupportResistance
  sentiment : Sentiment
  volume_analysis : Option VolumeAnalysis
  patterns : Patterns
  deriving DecidableEq

/-- The full assembled analysis dict. -/
structure AnalysisResult extends AnalysisCore where
  market_score : ℚ
  deriving DecidableEq

/-- The random draws consumed by one uncached `analyze_market` computation. -/
structure AnalyzerRand where
  rsi : ℚ
  macd_signal : String
  bb_position : ℚ
  high_factors : List ℚ
  low_factors : List ℚ
  news_sentiment : ℚ
  fear_greed : ℚ
  economic_impact : String
  pattern_choice : String
  pattern_strength : ℚ

/-! ### Market Analyzer: sub-analyses (`src/ai/market_analyzer.py`) -/

/-- `MarketAnalyzer._technical_analysis`.  `rsi`, `macd` and `bb` are the
random draws the source takes for the simulated indicators. -/
def technical_analysis (md : MarketData) (rsi : ℚ) (macd : String) (bb : ℚ) :
    Technical :=
  let price_data := md.price_history.getD (List.replicate 20 md.price)
  let current_price := md.price
  let ma20 := if 20 ≤ price_data.length then listMean (lastN 20 price_data)
              else current_price
  let ma50 := if 50 ≤ price_data.length then listMean (lastN 50 price_data)
              else current_price
  { ma20 := ma20
    ma50 := ma50
    ma_signal := if ma20 > ma50 then "bullish" else "bearish"
    rsi := rsi
    rsi_signal := if rsi < 30 then "oversold"
                  else if rsi > 70 then "overbought" else "neutral"
    macd_signal := macd
    bb_position := bb
    bb_signal := if bb < 1/5 then "oversold"
                 else if bb > 4/5 then "overbought" else "neutral" }

/-- `MarketAnalyzer._trend_analysis`.  The `p3 = 0` test models the
`ZeroDivisionError` the source catches (the handler returns sideways). -/
def trend_analysis (md : MarketData) : String :=
  let price_data := md.price_history.getD (List.replicate 10 md.price)
  if price_data.length < 3 then "sideways"
  else
    let p1 := price_data.getD (price_data.length - 1) 0
    let p3 := price_data.getD (price_data.length - 3) 0
    if p3 = 0 then "sideways"
    else
      let recent_change := (p1 - p3) / p3
      if recent_change > 1/1000 then "bullish"
      else if recent_change < -(1/1000) then "bearish"
      else "sideways"

/-- `MarketAnalyzer._calculate_trend_strength`. -/
def calculate_trend_strength (md : MarketData) : ℚ :=
  let price_change := md.price_change_24h.getD 0
  let volume := md.volume.getD (1/2)
  let momentum_factor := min (|price_change| * 100) 1
  let volume_factor := min volume 1
  let trend_strength := (momentum_factor + volume_factor) / 2
  min (max trend_strength (1/10)) 1

/-- `MarketAnalyzer._volatility_analysis`.  The membership test on
`price_data.dropLast` models the `ZeroDivisionError` raised when some divisor
`price_data[i-1]` is zero (the handler returns `0.5`). -/
def volatility_analysis (md : MarketData) : ℚ :=
  let price_data := md.price_history.getD (List.replicate 20 md.price)
  if price_data.length < 2 then 1/2
  else if 0 ∈ price_data.dropLast then 1/2
  else
    let price_changes :=
      List.zipWith (fun prev cur => (cur - prev) / prev) price_data price_data.tail
    if price_changes = [] then 1/2
    else
      let volatility := ratSqrt (listVar price_changes) * 100
      let normalized_volatility := min (volatility / 2) 1
      max normalized_volatility (1/10)

/-- `MarketAnalyzer._find_support_resistance`.  The per-element random spread
factors are the `highFactors` / `lowFactors` inputs; `none` models the `{}`
returned by the `except` handler (empty factor zip or division by a zero
current price). -/
def find_support_resistance (md : MarketData)
    (highFactors lowFactors : List ℚ) : Option SupportResistance :=
  let current_price := md.price
  let price_data := md.price_history.getD (List.replicate 20 current_price)
  let high_prices := List.zipWith (· * ·) (lastN 10 price_data) highFactors
  let low_prices := List.zipWith (· * ·) (lastN 10 price_data) lowFactors
  match high_prices.max?, low_prices.min? with
  | some resistance, some support =>
    if current_price = 0 then none
    else
      let resistance_distance := (resistance - current_price) / current_price
      let support_distance := (current_price - support) / current_price
      some { resistance := resistance
             support := support
             resistance_distance := resistance_distance
             support_distance := support_distance
             near_resistance := resistance_distance < 1/500
             near_support := support_distance < 1/500 }
  | _, _ => none

/-- `MarketAnalyzer._market_sentiment_analysis` (all inputs are the random
draws of the source). -/
def market_sentiment_analysis (news : ℚ) (fear : ℚ) (econ : String) :
    Sentiment :=
  let sentiment_score := (news + (fear - 50) / 50) / 2
  { news_sentiment := some news
    fear_greed_index := some fear
    economic_impact := some econ
    sentiment_score := some sentiment_score
    sentiment_label := if sentiment_score > 1/5 then "bullish"
                       else if sentiment_score < -(1/5) then "bearish"
                       else "neutral" }

/-- `MarketAnalyzer._volume_analysis`. -/
def volume_analysis (md : MarketData) : VolumeAnalysis :=
  let current_volume := md.volume.getD (1/2)
  let volume_history := md.volume_history.getD (List.replicate 10 current_volume)
  let avg_volume := if volume_history = [] then current_volume
                    else listMean volume_history
  { current_volume := some current_volume
    average_volume := some avg_volume
    volume_trend := if current_volume > avg_volume * (6/5) then "increasing"
                    else if current_volume < avg_volume * (4/5) then "decreasing"
                    else "stable"
    volume_strength := min (current_volume / max avg_volume (1/10)) 2
    high_volume := some (decide (current_volume > avg_volume * (3/2))) }

/-- `MarketAnalyzer._pattern_recognition` (`choice` and `strengthDraw` are the
random draws). -/
def pattern_recognition (choice : String) (strengthDraw : ℚ) : Patterns :=
  let bullish_patterns := ["double_bottom", "triangle", "flag", "pennant"]
  let bearish_patterns := ["double_top", "head_shoulders", "wedge"]
  let pattern_strength := if choice ≠ "none" then strengthDraw else 0
  { detected_pattern := some choice
    pattern_strength := some pattern_strength
    pattern_signal := if choice ∈ bullish_patterns then "bullish"
                      else if choice ∈ bearish_patterns then "bearish"
                      else "neutral"
    pattern_confidence := some (pattern_strength * 100) }

/-- `MarketAnalyzer._calculate_market_score`, translated statement by
statement (each `score +=` becomes a rebinding). -/
def calculate_market_score (a : AnalysisCore) : ℚ :=
  let score : ℚ := 1/2
  let ma_signal := a.technical.map Technical.ma_signal
  let score := if ma_signal = some "bullish" then score + 1/10
               else if ma_signal = some "bearish" then score - 1/10
               else score
  let rsi_signal := a.technical.map Technical.rsi_signal
  let score := if rsi_signal = some "oversold" then score + 1/20
               else if rsi_signal = some "overbought" then score - 1/20
               else score
  let score := if a.trend = "bullish" then score + (3/20) * a.trend_strength
               else if a.trend = "bearish" then score - (3/20) * a.trend_strength
               else score
  let score := score + (a.sentiment.sentiment_score.getD 0) * (1/10)
  let pattern_strength := a.patterns.pattern_strength.getD 0
  let score := if a.patterns.pattern_signal = "bullish" then
                 score + (1/10) * pattern_strength
               else if a.patterns.pattern_signal = "bearish" then
                 score - (1/10) * pattern_strength
               else score
  min (max score 0) 1

/-- `MarketAnalyzer._get_default_analysis`: the hardcoded neutral result
returned when the whole analysis fails (keys the source omits are `none`). -/
def default_analysis : AnalysisResult :=
  { technical := none
    trend := "sideways"
    trend_strength := 1/2
    volatility := 1/2
    support_resistance := none
    sentiment := { news_sentiment := none, fear_greed_index := none,
                   economic_impact := none, sentiment_score := none,
                   sentiment_label := "neutral" }
    volume_analysis := none
    patterns := { detected_pattern := none, pattern_strength := none,
                  pattern_signal := "neutral", pattern_confidence := none }
    market_score := 1/2 }

/-- The seven sub-analyses plus the market score, in source order: the body of
the uncached branch of `MarketAnalyzer.analyze_market`. -/
def assembleAnalysis (md : MarketData) (r : AnalyzerRand) : AnalysisResult :=
  let core : AnalysisCore :=
    { technical := some (technical_analysis md r.rsi r.macd_signal r.bb_position)
      trend := trend_analysis md
      trend_strength := calculate_trend_strength md
      volatility := volatility_analysis md
      support_resistance := find_support_resistance md r.high_factors r.low_factors
      sentiment := market_sentiment_analysis r.news_sentiment r.fear_greed
        r.economic_impact
      volume_analysis := some (volume_analysis md)
      patterns := pattern_recognition r.pattern_choice r.pattern_strength }
  { toAnalysisCore := core, market_score := calculate_market_score core }

/-! ### Market Analyzer: cache state machine -/

/-- The two per-pair dicts owned by a `MarketAnalyzer` instance.  Timestamps
are rational seconds. -/
structure AnalyzerState where
  analysis_cache : List (String × AnalysisResult)
  last_analysis_time : List (String × ℚ)

def emptyAnalyzerState : AnalyzerState := ⟨[], []⟩

/-- `MarketAnalyzer._is_analysis_cached`: both dicts hold the pair and the
entry is younger than 5 minutes (300 s). -/
def is_analysis_cached (st : AnalyzerState) (pair : String) (now : ℚ) : Bool :=
  match st.analysis_cache.lookup pair, st.last_analysis_time.lookup pair with
  | some _, some t => decide (now - t < 300)
  | _, _ => false

/-- `MarketAnalyzer.analyze_market`.  `crash : Bool` models an exception
escaping the sub-analysis assembly (every sub-analysis catches its own
errors, so this is the outer `except` path).  The third component records
whether the sub-analyses were recomputed. -/
def analyze_market (st : AnalyzerState) (pair : String) (md : MarketData)
    (r : AnalyzerRand) (now : ℚ) (crash : Bool) :
    AnalysisResult × AnalyzerState × Bool :=
  if is_analysis_cached st pair now then
    ((st.analysis_cache.lookup pair).getD default_analysis, st, false)
  else if crash then (default_analysis, st, false)
  else
    let a := assembleAnalysis md r
    (a, ⟨dictSet pair a st.analysis_cache, dictSet pair now st.last_analysis_time⟩,
      true)

/-! ### ML Predictor (`src/ai/ml_models.py`) -/

/-- The dict returned by `MLPredictor._make_prediction` /
`_get_default_prediction`; `reasoning` is attached afterwards by
`predict_direction`, so it is optional here. -/
structure Prediction where
  direction : String
  confidence : ℚ
  call_probability : ℚ
  put_probability : ℚ
  model_type : String
  prediction_strength : String
  reasoning : Option String
  deriving DecidableEq

/-- `MLPredictor._extract_features`: the fixed-order numeric feature vector,
entry by entry in source order.  `hour` and `weekday` embed `datetime.now()`. -/
def extract_features (md : MarketData) (a : AnalysisResult)
    (hour weekday : ℕ) : List ℚ :=
  [ md.price,
    ((a.technical.map Technical.rsi).getD 50) / 100,
    (if a.technical.map Technical.ma_signal = some "bullish" then 1
     else if a.technical.map Technical.ma_signal = some "bearish" then -1
     else 0),
    (a.technical.map Technical.bb_position).getD (1/2),
    (if a.technical.map Technical.macd_signal = some "bullish" then 1
     else if a.technical.map Technical.macd_signal = some "bearish" then -1
     else 0),
    a.trend_strength,
    (if a.trend = "bullish" then 1 else if a.trend = "bearish" then -1 else 0),
    a.volatility,
    (a.support_resistance.map SupportResistance.resistance_distance).getD (1/100),
    (a.support_resistance.map SupportResistance.support_distance).getD (1/100),
    (if (a.support_resistance.map SupportResistance.near_resistance).getD false
     then 1 else 0),
    (if (a.support_resistance.map SupportResistance.near_support).getD false
     then 1 else 0),
    a.sentiment.sentiment_score.getD 0,
    (a.sentiment.fear_greed_index.getD 50) / 100,
    (a.volume_analysis.map VolumeAnalysis.volume_strength).getD 1,
    (if (a.volume_analysis.bind VolumeAnalysis.high_volume).getD false
     then 1 else 0),
    (if a.patterns.pattern_signal = "bullish" then 1
     else if a.patterns.pattern_signal = "bearish" then -1 else 0),
    a.patterns.pattern_strength.getD 0,
    a.market_score,
    (hour : ℚ) / 24,
    (weekday : ℚ) / 6,
    (if 8 ≤ hour ∧ hour ≤ 16 then 1 else 0) ]

/-- `np.zeros((1, 20))`: the vector `_extract_features` returns from its
`except` handler. -/
def fallback_features : List ℚ := List.replicate 20 0

/-- `MLPredictor._select_model_type`. -/
def select_model_type (a : AnalysisResult) : String :=
  if a.volatility > 7/10 ∨ a.trend_strength > 4/5 then "short_term"
  else if a.volatility < 3/10 ∨ a.trend_strength < 3/10 then "long_term"
  else "medium_term"

/-- `MLPredictor._calculate_prediction_strength`. -/
def calculate_prediction_strength (features : List ℚ) : String :=
  let feature_variance := listVar features
  let feature_mean := listMean features
  if feature_variance < 1/10 ∧ |feature_mean - 1/2| > 1/5 then "STRONG"
  else if feature_variance < 1/5 ∧ |feature_mean - 1/2| > 1/10 then "MODERATE"
  else "WEAK"

/-- The call probability of `_make_prediction` before it is scaled to a
percentage and rounded: `max(0.1, min(0.9, base_probability + noise))`. -/
def raw_call_probability (features : List ℚ) (noise : ℚ) : ℚ :=
  let feature_mean := listMean features
  let base_probability := 1/2 + (feature_mean - 1/2) * (3/10)
  max (1/10) (min (9/10) (base_probability + noise))

/-- `MLPredictor._make_prediction`.  `noise` is the uniform draw in
`[-0.15, 0.15]`; `mult_s` / `mult_l` are the per-bucket confidence
multipliers drawn in `[0.9, 1.1]` / `[0.95, 1.05]`. -/
def make_prediction (model_type : String) (features : List ℚ)
    (noise mult_s mult_l : ℚ) : Prediction :=
  let call_probability := raw_call_probability features noise
  let direction := if call_probability > 1/2 then "CALL" else "PUT"
  let confidence := max call_probability (1 - call_probability) * 100
  let confidence := if model_type = "short_term" then confidence * mult_s
                    else if model_type = "long_term" then confidence * mult_l
                    else confidence
  let confidence := max 65 (min 95 confidence)
  { direction := direction
    confidence := round1 confidence
    call_probability := round1 (call_probability * 100)
    put_probability := round1 ((1 - call_probability) * 100)
    model_type := model_type
    prediction_strength := calculate_prediction_strength features
    reasoning := none }

/-- `MLPredictor._get_default_prediction`; `dir` is the random choice from
the CALL/PUT pair and `conf` the uniform draw in `[70, 85]`. -/
def default_prediction (dir : String) (conf : ℚ) : Prediction :=
  { direction := dir
    confidence := conf
    call_probability := 50
    put_probability := 50
    model_type := "medium_term"
    prediction_strength := "MODERATE"
    reasoning := some "Default AI analysis based on current market conditions" }

/-- `MLPredictor._generate_prediction_reasoning`.  (The source reads
`features[0][5]` and `features[0][6]` — which are `trend_strength` and the
trend sign, despite its comments — and that indexing is kept.) -/
def generate_prediction_reasoning (features : List ℚ) (a : AnalysisResult) :
    String :=
  let parts : List String := []
  let parts :=
    if features.length > 5 then
      let trend_indicator := features.getD 5 0
      let volatility := if features.length > 6 then features.getD 6 0 else 1/2
      let parts := if trend_indicator > 1/2 then
                     parts ++ ["Strong bullish trend detected"]
                   else if trend_indicator < -(1/2) then
                     parts ++ ["Clear bearish momentum identified"]
                   else parts
      if volatility > 7/10 then
        parts ++ ["High volatility supports strong directional move"]
      else if volatility < 3/10 then
        parts ++ ["Low volatility suggests stable price action"]
      else parts
    else parts
  let rsi := (a.technical.map Technical.rsi).getD 50
  let parts := if rsi < 30 then parts ++ ["RSI indicates oversold conditions"]
               else if rsi > 70 then parts ++ ["RSI shows overbought territory"]
               else parts
  let detected := a.patterns.detected_pattern.getD "none"
  let parts := if detected ≠ "none" then
                 parts ++ ["Chart pattern " ++ detected ++ " identified"]
               else parts
  let parts := if parts = [] then
                 ["Multiple technical factors align for this prediction"]
               else parts
  String.intercalate ". " (parts.take 3)

/-- One per-pair entry of `MLPredictor.accuracy_tracker`. -/
structure PairStats where
  total_predictions : ℕ
  correct_predictions : ℕ
  recent_accuracy : ℚ
  deriving DecidableEq

/-- The whole `accuracy_tracker` dict. -/
abbrev Tracker : Type := List (String × PairStats)

/-- `MLPredictor._track_prediction`.  `sim_correct` is the drawn outcome of
the `random.random() < 0.85` test in the source (ground truth is not known at
prediction time); the `prediction` argument is taken but, as in the source, unused. -/
def track_prediction (tr : Tracker) (pair : String) (_prediction : Prediction)
    (sim_correct : Bool) : Tracker :=
  let cur := (List.lookup pair tr).getD
    { total_predictions := 0, correct_predictions := 0, recent_accuracy := 17/20 }
  let total := cur.total_predictions + 1
  let correct := cur.correct_predictions + (if sim_correct then 1 else 0)
  dictSet pair
    { total_predictions := total
      correct_predictions := correct
      recent_accuracy := (correct : ℚ) / (total : ℚ) } tr

/-- The overall-accuracy branch of `MLPredictor.get_model_accuracy`. -/
def overall_accuracy (tr : Tracker) : ℚ :=
  if tr = [] then 17/20
  else
    let total_correct : ℕ := (tr.map (fun p => p.2.correct_predictions)).sum
    let total_predictions : ℕ := (tr.map (fun p => p.2.total_predictions)).sum
    if total_predictions > 0 then (total_correct : ℚ) / (total_predictions : ℚ)
    else 17/20

/-- `MLPredictor.get_model_accuracy`.  A `some ""` pair is falsy in Python
(`if pair and pair in self.accuracy_tracker`), hence the extra test. -/
def get_model_accuracy (tr : Tracker) (pair : Option String) : ℚ :=
  match pair with
  | some p =>
    if p ≠ "" then
      match List.lookup p tr with
      | some s => s.recent_accuracy
      | none => overall_accuracy tr
    else overall_accuracy tr
  | none => overall_accuracy tr

/-- The random draws consumed by one `predict_direction` call. -/
structure PredictRand where
  noise : ℚ
  mult_s : ℚ
  mult_l : ℚ
  sim_correct : Bool

/-- `MLPredictor.predict_direction`: extract features, pick the bucket, make
the prediction, attach reasoning, track the prediction. -/
def predict_direction (tr : Tracker) (pair : String) (md : MarketData)
    (a : AnalysisResult) (r : PredictRand) (hour weekday : ℕ) :
    Prediction × Tracker :=
  let features := extract_features md a hour weekday
  let model_type := select_model_type a
  let p := make_prediction model_type features r.noise r.mult_s r.mult_l
  let p := { p with reasoning := some (generate_prediction_reasoning features a) }
  (p, track_prediction tr pair p r.sim_correct)

/-! ### Signal Composer (`src/ai/signal_generator.py`) -/

/-- The signal dict assembled by `SignalGenerator._create_signal` /
`_create_signal_with_timeframe`.  `timestamp` holds the generation epoch in
seconds (the source also keeps a formatted copy of the same instant). -/
structure Signal where
  pair : String
  direction : String
  entry_price : ℚ
  current_price : ℚ
  expiration_minutes : ℤ
  confidence : ℚ
  risk_level : String
  analysis : String
  timestamp : ℤ
  signal_id : String
  deriving DecidableEq

/-- The random draws consumed by one signal composition: the entry-price
micro-jitter in `[-0.0001, 0.0001]`, the `random.randint(lo, hi)` source used
for the base expiration, and the narrative template index. -/
structure ComposeRand where
  jitter : ℚ
  pick : ℤ → ℤ → ℤ
  template_idx : ℕ

/-- `SignalGenerator._calculate_expiration_time`: confidence tier picks the
base window, volatility shifts it, then the result is clamped to `[5, 60]`. -/
def calculate_expiration_time (a : AnalysisResult) (confidence : ℚ)
    (pick : ℤ → ℤ → ℤ) : ℤ :=
  let volatility := a.volatility
  let base_time := if confidence > 85 then pick 5 10
                   else if confidence > 70 then pick 10 20
                   else pick 15 30
  let base_time := if volatility > 7/10 then max 5 (base_time - 5)
                   else if volatility < 3/10 then base_time + 10
                   else base_time
  min 60 (max 5 base_time)

/-- `SignalGenerator._assess_risk_level`. -/
def assess_risk_level (a : AnalysisResult) (confidence : ℚ) : String :=
  let volatility := a.volatility
  let trend_strength := a.trend_strength
  let risk_score : ℕ :=
    (if confidence < 70 then 2 else if confidence < 85 then 1 else 0)
    + (if volatility > 4/5 then 2 else if volatility > 3/5 then 1 else 0)
    + (if trend_strength < 2/5 then 1 else 0)
  if risk_score ≤ 1 then "LOW"
  else if risk_score ≤ 3 then "MEDIUM"
  else "HIGH"

/-- The CALL list of `reasoning_templates` in `_generate_analysis_text`. -/
def call_templates : List String :=
  [ "Technical indicators align for upward movement",
    "Support levels holding strong, expecting bounce",
    "Bullish divergence in momentum indicators",
    "Break above resistance suggests continuation" ]

/-- The PUT list of `reasoning_templates` in `_generate_analysis_text`. -/
def put_templates : List String :=
  [ "Technical indicators suggest downward pressure",
    "Resistance levels showing rejection patterns",
    "Bearish divergence in momentum indicators",
    "Break below support indicates continuation" ]

/-- `SignalGenerator._generate_analysis_text`.  A direction other than
`CALL`/`PUT` raises `KeyError` in the source, whose handler returns the fixed
fallback sentence. -/
def generate_analysis_text (a : AnalysisResult) (pred : Prediction)
    (template_idx : ℕ) : String :=
  if pred.direction ≠ "CALL" ∧ pred.direction ≠ "PUT" then
    "AI analysis indicates favorable trading conditions based on current market data."
  else
    let trend_part := if a.trend = "bullish" then "Strong bullish momentum detected"
                      else if a.trend = "bearish" then "Clear bearish pressure identified"
                      else "Market showing consolidation pattern"
    let vol_part := if a.volatility > 7/10 then
                      "High volatility suggests strong price movement"
                    else if a.volatility < 3/10 then
                      "Low volatility indicates stable price action"
                    else "Moderate volatility with clear directional bias"
    let templates := if pred.direction = "CALL" then call_templates else put_templates
    let reason := templates.getD (template_idx % templates.length) ""
    String.intercalate ". " [trend_part, vol_part, reason]
      ++ ". AI confidence: " ++ fmt1 pred.confidence ++ "%"

/-- `SignalGenerator._generate_analysis_text_with_timeframe`. -/
def generate_analysis_text_with_timeframe (a : AnalysisResult)
    (pred : Prediction) (expiration_minutes : ℤ) : String :=
  if pred.direction ≠ "CALL" ∧ pred.direction ≠ "PUT" then
    "AI analysis for " ++ toString expiration_minutes
      ++ "min timeframe indicates favorable trading conditions."
  else
    let head_parts :=
      if expiration_minutes ≤ 5 then
        [ "Short-term " ++ toString expiration_minutes ++ "min scalping opportunity",
          if a.volatility > 3/5 then "High volatility perfect for quick trades"
          else "Stable momentum for precise entry" ]
      else if expiration_minutes ≤ 30 then
        [ "Medium-term " ++ toString expiration_minutes ++ "min swing setup",
          "Balanced risk-reward ratio for trend following" ]
      else
        [ "Long-term " ++ toString expiration_minutes ++ "min position trade",
          "Strong directional bias for extended moves" ]
    let trend_part := if a.trend = "bullish" then "Strong bullish momentum detected"
                      else if a.trend = "bearish" then "Clear bearish pressure identified"
                      else "Consolidation breakout pattern forming"
    let bucket := if expiration_minutes ≤ 5 then "short"
                  else if expiration_minutes ≤ 30 then "medium" else "long"
    let reason :=
      if pred.direction = "CALL" then
        if bucket = "short" then "Momentum indicators show bullish acceleration"
        else if bucket = "medium" then "Support levels holding, expecting bounce higher"
        else "Major trend reversal signals confirmed"
      else
        if bucket = "short" then "Momentum indicators show bearish acceleration"
        else if bucket = "medium" then "Resistance rejection, expecting move lower"
        else "Major trend reversal signals confirmed"
    String.intercalate ". " (head_parts ++ [trend_part, reason])
      ++ ". AI confidence: " ++ fmt1 pred.confidence ++ "%"

/-- `SignalGenerator._create_signal` (expiration always computed). -/
def create_signal (pair : String) (md : MarketData) (a : AnalysisResult)
    (pred : Prediction) (cr : ComposeRand) (epoch : ℤ) : Signal :=
  let direction := pred.direction
  let confidence := pred.confidence
  let current_price := md.price
  let entry_price := current_price * (1 + cr.jitter)
  let expiration_minutes := calculate_expiration_time a confidence cr.pick
  let risk_level := assess_risk_level a confidence
  { pair := pair
    direction := direction
    entry_price := entry_price
    current_price := current_price
    expiration_minutes := expiration_minutes
    confidence := confidence
    risk_level := risk_level
    analysis := generate_analysis_text a pred cr.template_idx
    timestamp := epoch
    signal_id := pair ++ "_" ++ toString epoch }

/-- `SignalGenerator._create_signal_with_timeframe`: a caller-supplied
expiration (`some e`) is used directly; `none` triggers the calculation. -/
def create_signal_with_timeframe (pair : String) (md : MarketData)
    (a : AnalysisResult) (pred : Prediction) (expiration : Option ℤ)
    (cr : ComposeRand) (epoch : ℤ) : Signal :=
  let direction := pred.direction
  let confidence := pred.confidence
  let current_price := md.price
  let entry_price := current_price * (1 + cr.jitter)
  let expiration_minutes :=
    match expiration with
    | none => calculate_expiration_time a confidence cr.pick
    | some e => e
  let risk_level := assess_risk_level a confidence
  { pair := pair
    direction := direction
    entry_price := entry_price
    current_price := current_price
    expiration_minutes := expiration_minutes
    confidence := confidence
    risk_level := risk_level
    analysis := generate_analysis_text_with_timeframe a pred expiration_minutes
    timestamp := epoch
    signal_id := pair ++ "_" ++ toString epoch }

/-! ### The composed pipeline (`SignalGenerator.generate_signal`) -/

/-- Mutable state shared by the pipeline: the cache dicts of the Analyzer and
the accuracy tracker of the Predictor. -/
structure EngineState where
  analyzer : AnalyzerState
  tracker : Tracker

/-- Stages invoked during one `generate_signal` request. -/
inductive PipelineEvent
  | analyzerCall
  | predictorCall
  deriving DecidableEq

/-- `SignalGenerator.generate_signal` for an explicitly given pair: a missing
snapshot (`none` from the data source) is a hard stop returning no signal
before the Analyzer or Predictor run.  The third component is the trace of
stages invoked. -/
def generate_signal (st : EngineState) (pair : String)
    (snapshot : Option MarketData) (ar : AnalyzerRand) (pr : PredictRand)
    (cr : ComposeRand) (hour weekday : ℕ) (now : ℚ) (epoch : ℤ) :
    Option Signal × EngineState × List PipelineEvent :=
  match snapshot with
  | none => (none, st, [])
  | some md =>
    let r1 := analyze_market st.analyzer pair md ar now false
    let r2 := predict_direction st.tracker pair md r1.1 pr hour weekday
    let signal := create_signal pair md r1.1 r2.1 cr epoch
    (some signal, ⟨r1.2.1, r2.2⟩,
      [PipelineEvent.analyzerCall, PipelineEvent.predictorCall])

/-! ### Spec-side definitions (for refinement claims)

These follow the wording of the specification rather than the source, and the
theorems compare them with the embedded source functions. -/

/-- The market-score weighting exactly as §4.1 of the spec states it: base
0.5, MA-cross ±0.1, RSI band ±0.05, trend ±0.15·strength, sentiment·0.1,
pattern ±0.1·strength, clamped to [0, 1]. -/
def market_score_spec (a : AnalysisCore) : ℚ :=
  min (max ((1:ℚ)/2
    + (if a.technical.map Technical.ma_signal = some "bullish" then 1/10
       else if a.technical.map Technical.ma_signal = some "bearish" then -(1/10)
       else 0)
    + (if a.technical.map Technical.rsi_signal = some "oversold" then 1/20
       else if a.technical.map Technical.rsi_signal = some "overbought" then -(1/20)
       else 0)
    + (if a.trend = "bullish" then (3/20) * a.trend_strength
       else if a.trend = "bearish" then -((3/20) * a.trend_strength)
       else 0)
    + (a.sentiment.sentiment_score.getD 0) * (1/10)
    + (if a.patterns.pattern_signal = "bullish" then
         (1/10) * (a.patterns.pattern_strength.getD 0)
       else if a.patterns.pattern_signal = "bearish" then
         -((1/10) * (a.patterns.pattern_strength.getD 0))
       else 0)) 0) 1

/-- The risk scoring table exactly as §4.3 of the spec states it. -/
def risk_level_spec (confidence volatility trend_strength : ℚ) : String :=
  let risk_score : ℕ :=
    (if confidence < 70 then 2 else if confidence < 85 then 1 else 0)
    + (if volatility > 4/5 then 2 else if volatility > 3/5 then 1 else 0)
    + (if trend_strength < 2/5 then 1 else 0)
  if risk_score ≤ 1 then "LOW"
  else if risk_score ≤ 3 then "MEDIUM"
  else "HIGH"

/-- The trend classification exactly as §4.1 of the spec states it: sign of
the 3-step-back relative delta against a 0.1% dead-zone. -/
def trend_class_spec (p3 p1 : ℚ) : String :=
  let recent_change := (p1 - p3) / p3
  if recent_change > 1/1000 then "bullish"
  else if recent_change < -(1/1000) then "bearish"
  else "sideways"

/-! ### C1 — market score aggregation -/

/-- Rewrites one `score += w` / `score -= w` statement of
`_calculate_market_score` into an added signed weight. -/
theorem ite_add_shift (c d : Prop) [Decidable c] [Decidable d] (s x y : ℚ) :
    (if c then s + x else if d then s - y else s)
      = s + (if c then x else if d then -y else 0) := by
  split_ifs <;> ring

/-- **C1.** For every analysis dict, `_calculate_market_score` computes
exactly the additive weighting of the spec (base 0.5; MA-cross ±0.1; RSI band
±0.05; trend ±0.15·trend_strength; sentiment_score·0.1; pattern
±0.1·pattern_strength; clamped to [0,1]); every assembled analysis carries
`market_score` equal to that function of its own other fields, so the score is
never produced independently; and the score is always within [0,1]. -/
theorem market_score_aggregation :
    (∀ a : AnalysisCore, calculate_market_score a = market_score_spec a)
    ∧ (∀ (md : MarketData) (r : AnalyzerRand),
        (assembleAnalysis md r).market_score
          = market_score_spec (assembleAnalysis md r).toAnalysisCore)
    ∧ (∀ a : AnalysisCore,
        0 ≤ calculate_market_score a ∧ calculate_market_score a ≤ 1) := by
  have key : ∀ a : AnalysisCore, calculate_market_score a = market_score_spec a := by
    intro a
    simp only [calculate_market_score, market_score_spec, ite_add_shift]
  refine ⟨key, fun md r => ?_, fun a => ?_⟩
  · show calculate_market_score _ = _
    exact key _
  · rw [key a]
    unfold market_score_spec
    exact ⟨le_min (le_max_right _ _) zero_le_one, min_le_right _ _⟩

/-! ### C5 — risk level is the documented pure function -/

/-- **C5.** `_assess_risk_level` is the pure function of (confidence,
volatility, trend_strength) given by the scoring table of the spec, its value is
always one of LOW/MEDIUM/HIGH, and both signal constructors store exactly that
function of the confidence of the prediction and the analysis fields. -/
theorem risk_level_table :
    (∀ (a : AnalysisResult) (confidence : ℚ),
      assess_risk_level a confidence
        = risk_level_spec confidence a.volatility a.trend_strength)
    ∧ (∀ c v t : ℚ, risk_level_spec c v t = "LOW" ∨ risk_level_spec c v t = "MEDIUM"
        ∨ risk_level_spec c v t = "HIGH")
    ∧ (∀ pair md a pred cr epoch,
        (create_signal pair md a pred cr epoch).risk_level
          = risk_level_spec pred.confidence a.volatility a.trend_strength)
    ∧ (∀ pair md a pred e cr epoch,
        (create_signal_with_timeframe pair md a pred e cr epoch).risk_level
          = risk_level_spec pred.confidence a.volatility a.trend_strength) := by
  have key : ∀ (a : AnalysisResult) (confidence : ℚ),
      assess_risk_level a confidence
        = risk_level_spec confidence a.volatility a.trend_strength := by
    intro a confidence; rfl
  refine ⟨key, fun c v t => ?_, fun pair md a pred cr epoch => key a _,
    fun pair md a pred e cr epoch => key a _⟩
  unfold risk_level_spec
  split_ifs <;> simp

/-! ### C4 — feature vector length (corrected: 22, fallback 20) -/

/-- Fixed concrete snapshot used for the concrete-input theorems. -/
def sample_market_data : MarketData :=
  { price := 1085/1000
    price_history := some (List.replicate 20 (1085/1000))
    volume := some 1
    volume_history := some (List.replicate 10 1)
    price_change_24h := some 0 }

/-- **C4 (counterexample).** At a concrete snapshot and analysis the feature
vector does not have 20 components. -/
theorem feature_vector_not_twenty :
    (extract_features sample_market_data default_analysis 12 2).length ≠ 20 := by
  decide

/-- **C4 (amended).** The extracted feature vector always has exactly 22
components (price, technical 4, trend 2, volatility, support/resistance 4,
sentiment 2, volume 2, pattern 2, market score, time 3, in source order),
while the fallback vector returned on extraction failure has only 20. -/
theorem feature_vector_length :
    (∀ (md : MarketData) (a : AnalysisResult) (hour weekday : ℕ),
      (extract_features md a hour weekday).length = 22)
    ∧ fallback_features.length = 20
    ∧ (22 : ℕ) ≠ 20 := by
  exact ⟨fun md a hour weekday => rfl, rfl, by decide⟩

/-! ### C8 — missing snapshot is a hard stop -/

/-- **C8.** When the snapshot source yields nothing, `generate_signal`
returns no signal, the engine state (analysis cache and accuracy tracker) is
untouched, and neither the Analyzer nor the Predictor stage is invoked (the
pipeline trace is empty). -/
theorem missing_snapshot_hard_stop :
    ∀ (st : EngineState) (pair : String) (ar : AnalyzerRand) (pr : PredictRand)
      (cr : ComposeRand) (hour weekday : ℕ) (now : ℚ) (epoch : ℤ),
      generate_signal st pair none ar pr cr hour weekday now epoch
        = (none, st, []) := by
  intro st pair ar pr cr hour weekday now epoch
  rfl

/-! ### C2 — prediction result bounds (corrected) -/

theorem round_le_round_of_le {x y : ℚ} (h : x ≤ y) : round x ≤ round y := by
  rw [round_eq, round_eq]
  exact Int.floor_le_floor (by linarith)

/-- Clamping to `[65, 95]` and then rounding to one decimal stays within
`[65, 95]`. -/
theorem round1_clamp_bounds (x : ℚ) :
    65 ≤ round1 (max 65 (min 95 x)) ∧ round1 (max 65 (min 95 x)) ≤ 95 := by
  have h65 : (65:ℚ) ≤ max 65 (min 95 x) := le_max_left _ _
  have h95 : max 65 (min 95 x) ≤ 95 := max_le (by norm_num) (min_le_left _ _)
  have hlo : (650:ℤ) ≤ round (10 * max 65 (min 95 x)) := by
    have h := round_le_round_of_le (show (650:ℚ) ≤ 10 * max 65 (min 95 x) by linarith)
    rwa [show ((650:ℚ) = ((650:ℤ):ℚ)) by norm_num, round_intCast] at h
  have hhi : round (10 * max 65 (min 95 x)) ≤ (950:ℤ) := by
    have h := round_le_round_of_le (show 10 * max 65 (min 95 x) ≤ (950:ℚ) by linarith)
    rwa [show ((950:ℚ) = ((950:ℤ):ℚ)) by norm_num, round_intCast] at h
  unfold round1
  constructor
  · rw [le_div_iff₀ (by norm_num : (0:ℚ) < 10)]
    exact_mod_cast hlo
  · rw [div_le_iff₀ (by norm_num : (0:ℚ) < 10)]
    exact_mod_cast hhi

/-- The two reported probabilities of `_make_prediction` sum to 100 within
one rounding step (0.1). -/
theorem round1_split_sum (cp : ℚ) :
    |round1 (cp * 100) + round1 ((1 - cp) * 100) - 100| ≤ 1/10 := by
  have a1 := abs_sub_round (10 * (cp * 100))
  have a2 := abs_sub_round (10 * ((1 - cp) * 100))
  rw [abs_le] at a1 a2 ⊢
  unfold round1
  obtain ⟨a1l, a1r⟩ := a1
  obtain ⟨a2l, a2r⟩ := a2
  constructor <;> linarith

/-- **C2 (counterexample).** The default prediction returned on Predictor
failure can draw direction `CALL` while reporting `call_probability = 50`,
so `direction = CALL ↔ call_probability > 50` fails on it. -/
theorem default_prediction_breaks_iff :
    (default_prediction "CALL" 80).direction = "CALL"
      ∧ ¬ ((default_prediction "CALL" 80).call_probability > 50) := by
  constructor
  · rfl
  · norm_num [default_prediction]

/-- **C2 (amended).** For every `_make_prediction` result the confidence is
in [65, 95], the reported probabilities sum to 100 within one rounding step
(0.1), and the direction is `CALL` exactly when the *pre-rounding* call
probability exceeds 0.5 — hence the reported `call_probability` is ≥ 50 for
CALL and ≤ 50 for PUT, but can equal exactly 50 for either.  The default
prediction keeps confidence inside [65, 95] (its draw is in [70, 85]) and
reports both probabilities as exactly 50 with an independently drawn
direction. -/
theorem prediction_result_bounds :
    (∀ (model_type : String) (features : List ℚ) (noise mult_s mult_l : ℚ),
      (65 ≤ (make_prediction model_type features noise mult_s mult_l).confidence
        ∧ (make_prediction model_type features noise mult_s mult_l).confidence ≤ 95)
      ∧ |(make_prediction model_type features noise mult_s mult_l).call_probability
          + (make_prediction model_type features noise mult_s mult_l).put_probability
          - 100| ≤ 1/10
      ∧ ((make_prediction model_type features noise mult_s mult_l).direction = "CALL"
          ↔ 1/2 < raw_call_probability features noise)
      ∧ ((make_prediction model_type features noise mult_s mult_l).direction = "CALL"
          → 50 ≤ (make_prediction model_type features noise mult_s mult_l).call_probability)
      ∧ ((make_prediction model_type features noise mult_s mult_l).direction = "PUT"
          → (make_prediction model_type features noise mult_s mult_l).call_probability ≤ 50))
    ∧ (∀ (dir : String) (conf : ℚ), 70 ≤ conf → conf ≤ 85 →
      (65 ≤ (default_prediction dir conf).confidence
        ∧ (default_prediction dir conf).confidence ≤ 95)
      ∧ (default_prediction dir conf).call_probability
          + (default_prediction dir conf).put_probability = 100
      ∧ (default_prediction dir conf).call_probability = 50) := by
  constructor
  · intro model_type features noise mult_s mult_l
    refine ⟨?_, ?_, ?_, ?_, ?_⟩
    · simp only [make_prediction]
      exact round1_clamp_bounds _
    · simp only [make_prediction]
      exact round1_split_sum _
    · simp only [make_prediction]
      split_ifs with h
      · simpa using h
      · simp only [String.reduceEq, false_iff]
        simpa using h
    · simp only [make_prediction]
      split_ifs with h
      · intro _
        have h500 : (500:ℤ) ≤ round (10 * (raw_call_probability features noise * 100)) := by
          have hr := round_le_round_of_le
            (show (500:ℚ) ≤ 10 * (raw_call_probability features noise * 100) by linarith)
          rwa [show ((500:ℚ) = ((500:ℤ):ℚ)) by norm_num, round_intCast] at hr
        unfold round1
        rw [le_div_iff₀ (by norm_num : (0:ℚ) < 10)]
        exact_mod_cast h500
      · intro hc
        exact absurd hc (by simp)
    · simp only [make_prediction]
      split_ifs with h
      · intro hc
        exact absurd hc (by simp)
      · intro _
        push_neg at h
        have h500 : round (10 * (raw_call_probability features noise * 100)) ≤ (500:ℤ) := by
          have hr := round_le_round_of_le
            (show 10 * (raw_call_probability features noise * 100) ≤ (500:ℚ) by linarith)
          rwa [show ((500:ℚ) = ((500:ℤ):ℚ)) by norm_num, round_intCast] at hr
        unfold round1
        rw [div_le_iff₀ (by norm_num : (0:ℚ) < 10)]
        exact_mod_cast h500
  · intro dir conf h70 h85
    refine ⟨⟨by simpa [default_prediction] using le_trans (by norm_num) h70,
             by simpa [default_prediction] using le_trans h85 (by norm_num)⟩,
            by norm_num [default_prediction], rfl⟩

/-- Witness for `prediction_result_bounds` at a concrete default draw. -/
theorem prediction_result_bounds_witness :
    (65 ≤ (default_prediction "PUT" 72).confidence
      ∧ (default_prediction "PUT" 72).confidence ≤ 95)
    ∧ (default_prediction "PUT" 72).call_probability
        + (default_prediction "PUT" 72).put_probability = 100
    ∧ (default_prediction "PUT" 72).call_probability = 50 :=
  prediction_result_bounds.2 "PUT" 72 (by norm_num) (by norm_num)

/-! ### C3 — expiration bounds (corrected: explicit expirations pass through) -/

/-- **C3 (counterexample).** A caller-supplied expiration of 240 minutes (the
`4h` chat option) is stored unchanged, far outside `[5, 60]`. -/
theorem explicit_expiration_escapes_bounds :
    (create_signal_with_timeframe "EUR/USD" sample_market_data default_analysis
        (default_prediction "CALL" 80) (some 240)
        ⟨0, fun lo _ => lo, 0⟩ 0).expiration_minutes = 240
      ∧ ¬ ((create_signal_with_timeframe "EUR/USD" sample_market_data default_analysis
        (default_prediction "CALL" 80) (some 240)
        ⟨0, fun lo _ => lo, 0⟩ 0).expiration_minutes ≤ 60) := by
  constructor
  · rfl
  · decide

/-- **C3 (amended).** Whenever the Composer computes the expiration itself
(tier pick, volatility shift, final clamp) the stored value lies in `[5, 60]`
— regardless of the random draw; a caller-supplied explicit expiration is
stored directly without recalculation or clamping, so the `[5, 60]` bound is
guaranteed only for the computed path. -/
theorem expiration_minutes_bounds :
    (∀ (a : AnalysisResult) (confidence : ℚ) (pick : ℤ → ℤ → ℤ),
      5 ≤ calculate_expiration_time a confidence pick
        ∧ calculate_expiration_time a confidence pick ≤ 60)
    ∧ (∀ pair md a pred cr epoch,
        5 ≤ (create_signal pair md a pred cr epoch).expiration_minutes
          ∧ (create_signal pair md a pred cr epoch).expiration_minutes ≤ 60)
    ∧ (∀ pair md a pred cr epoch,
        5 ≤ (create_signal_with_timeframe pair md a pred none cr epoch).expiration_minutes
          ∧ (create_signal_with_timeframe pair md a pred none cr epoch).expiration_minutes ≤ 60)
    ∧ (∀ pair md a pred (e : ℤ) cr epoch,
        (create_signal_with_timeframe pair md a pred (some e) cr epoch).expiration_minutes
          = e) := by
  have key : ∀ (a : AnalysisResult) (confidence : ℚ) (pick : ℤ → ℤ → ℤ),
      5 ≤ calculate_expiration_time a confidence pick
        ∧ calculate_expiration_time a confidence pick ≤ 60 := by
    intro a confidence pick
    unfold calculate_expiration_time
    exact ⟨le_min (by norm_num) (le_max_left _ _), min_le_left _ _⟩
  exact ⟨key, fun pair md a pred cr epoch => key a pred.confidence cr.pick,
    fun pair md a pred cr epoch => key a pred.confidence cr.pick,
    fun pair md a pred e cr epoch => rfl⟩

/-! ### C6 — cache idempotence within the freshness window -/

theorem lookup_dictSet_self {α : Type} (k : String) (v : α)
    (l : List (String × α)) : List.lookup k (dictSet k v l) = some v := by
  simp [dictSet, List.lookup]

/-- Fixed concrete random draws for the Analyzer, used by the concrete-input
theorems. -/
def sample_analyzer_rand : AnalyzerRand :=
  { rsi := 55
    macd_signal := "neutral"
    bb_position := 1/2
    high_factors := List.replicate 10 (1002/1000)
    low_factors := List.replicate 10 (998/1000)
    news_sentiment := 0
    fear_greed := 50
    economic_impact := "neutral"
    pattern_choice := "none"
    pattern_strength := 1/2 }

/-- **C6.** After an uncached (and non-failing) Analyzer call at time `t0`, a
second call for the same pair at any time `t1` within the 5-minute window
returns exactly the value and state the first call produced, without
recomputing any sub-analysis (`recomputed = false`), irrespective of the
snapshot, random draws and crash flag of the second call. -/
theorem analyzer_cache_idempotent (st : AnalyzerState) (pair : String)
    (md1 md2 : MarketData) (r1 r2 : AnalyzerRand) (t0 t1 : ℚ) (c2 : Bool)
    (h0 : is_analysis_cached st pair t0 = false)
    (h1 : t1 - t0 < 300) :
    analyze_market ((analyze_market st pair md1 r1 t0 false).2.1) pair md2 r2 t1 c2
      = ((analyze_market st pair md1 r1 t0 false).1,
         (analyze_market st pair md1 r1 t0 false).2.1, false) := by
  have hfirst : analyze_market st pair md1 r1 t0 false
      = (assembleAnalysis md1 r1,
         ⟨dictSet pair (assembleAnalysis md1 r1) st.analysis_cache,
          dictSet pair t0 st.last_analysis_time⟩, true) := by
    unfold analyze_market
    rw [h0]
    simp
  rw [hfirst]
  have hcached : is_analysis_cached
      ⟨dictSet pair (assembleAnalysis md1 r1) st.analysis_cache,
       dictSet pair t0 st.last_analysis_time⟩ pair t1 = true := by
    unfold is_analysis_cached
    rw [lookup_dictSet_self, lookup_dictSet_self]
    simpa using h1
  unfold analyze_market
  rw [hcached]
  simp [lookup_dictSet_self]

/-- Witness for `analyzer_cache_idempotent`: a fresh analyzer, one computation
at `t = 0`, a second call one minute later. -/
theorem analyzer_cache_idempotent_witness :
    analyze_market ((analyze_market emptyAnalyzerState "EUR/USD"
        sample_market_data sample_analyzer_rand 0 false).2.1) "EUR/USD"
        sample_market_data sample_analyzer_rand 60 false
      = ((analyze_market emptyAnalyzerState "EUR/USD"
          sample_market_data sample_analyzer_rand 0 false).1,
         (analyze_market emptyAnalyzerState "EUR/USD"
          sample_market_data sample_analyzer_rand 0 false).2.1, false) :=
  analyzer_cache_idempotent emptyAnalyzerState "EUR/USD" sample_market_data
    sample_market_data sample_analyzer_rand sample_analyzer_rand 0 60 false
    (by decide) (by norm_num)

/-! ### C7 — whole-analysis failure returns the uncached neutral default -/

/-- **C7.** When the whole analysis fails on a cache miss, the Analyzer
returns the hardcoded neutral result (trend sideways, strength 0.5,
volatility 0.5, market score 0.5, neutral sentiment and patterns) and leaves
its state untouched; and on every call the state is either unchanged or
extended with exactly the fully assembled result — nothing else is ever
cached. -/
theorem analyzer_failure_neutral_uncached :
    (∀ (st : AnalyzerState) (pair : String) (md : MarketData)
        (r : AnalyzerRand) (now : ℚ),
      is_analysis_cached st pair now = false →
      analyze_market st pair md r now true = (default_analysis, st, false))
    ∧ (default_analysis.trend = "sideways"
        ∧ default_analysis.trend_strength = 1/2
        ∧ default_analysis.volatility = 1/2
        ∧ default_analysis.market_score = 1/2
        ∧ default_analysis.sentiment.sentiment_label = "neutral"
        ∧ default_analysis.patterns.pattern_signal = "neutral")
    ∧ (∀ (st : AnalyzerState) (pair : String) (md : MarketData)
        (r : AnalyzerRand) (now : ℚ) (crash : Bool),
      (analyze_market st pair md r now crash).2.1 = st
        ∨ (analyze_market st pair md r now crash).2.1
          = ⟨dictSet pair (assembleAnalysis md r) st.analysis_cache,
             dictSet pair now st.last_analysis_time⟩) := by
  refine ⟨?_, by norm_num [default_analysis], ?_⟩
  · intro st pair md r now h
    unfold analyze_market
    rw [h]
    simp
  · intro st pair md r now crash
    unfold analyze_market
    split_ifs <;> simp

/-- Witness for `analyzer_failure_neutral_uncached` at a fresh analyzer. -/
theorem analyzer_failure_neutral_witness :
    analyze_market emptyAnalyzerState "GBP/USD" sample_market_data
        sample_analyzer_rand 0 true
      = (default_analysis, emptyAnalyzerState, false) :=
  analyzer_failure_neutral_uncached.1 emptyAnalyzerState "GBP/USD"
    sample_market_data sample_analyzer_rand 0 (by decide)

/-! ### C9 — trend classification and the flat-history scenario -/

theorem zipWith_replicate_min (f : ℚ → ℚ → ℚ) (c d : ℚ) :
    ∀ (n m : ℕ), List.zipWith f (List.replicate n c) (List.replicate m d)
      = List.replicate (min n m) (f c d) := by
  intro n
  induction n with
  | zero => intro m; simp
  | succ k ih =>
    intro m
    cases m with
    | zero => simp
    | succ j =>
      simp only [List.replicate_succ, List.zipWith_cons_cons, ih j,
        Nat.succ_min_succ]

theorem listVar_replicate_zero (k : ℕ) :
    listVar (List.replicate k (0:ℚ)) = 0 := by
  simp [listVar, listMean, List.sum_replicate, List.map_replicate]

theorem ratSqrt_zero : ratSqrt 0 = 0 := by
  simp [ratSqrt]

/-- A snapshot whose price history is `n` copies of the constant price `c`. -/
def flat_market_data (c : ℚ) (n : ℕ) : MarketData :=
  { price := c
    price_history := some (List.replicate n c)
    volume := none
    volume_history := none
    price_change_24h := none }

/-- **C9.** Trend classification is the sign of the delta between the last
and third-from-last history prices against the 0.1% dead-zone; and for any
flat history (≥ 2 equal nonzero prices) the trend resolves to `sideways`
while the volatility floors at exactly 0.1. -/
theorem trend_deadzone_and_flat_floor :
    (∀ (md : MarketData) (pd : List ℚ), md.price_history = some pd →
      3 ≤ pd.length → pd.getD (pd.length - 3) 0 ≠ 0 →
      trend_analysis md
        = trend_class_spec (pd.getD (pd.length - 3) 0) (pd.getD (pd.length - 1) 0))
    ∧ (∀ (c : ℚ) (n : ℕ), c ≠ 0 → 2 ≤ n →
      trend_analysis (flat_market_data c n) = "sideways"
        ∧ volatility_analysis (flat_market_data c n) = 1/10) := by
  constructor
  · intro md pd hh h3 hnz
    unfold trend_analysis trend_class_spec
    rw [hh]
    simp only [Option.getD_some]
    rw [if_neg (by omega), if_neg hnz]
  · intro c n hc hn
    constructor
    · unfold trend_analysis flat_market_data
      simp only [Option.getD_some]
      by_cases h3 : (List.replicate n c).length < 3
      · rw [if_pos h3]
      · rw [if_neg h3]
        have hget : ∀ i, i < n → (List.replicate n c).getD i 0 = c := by
          intro i hi
          simp [List.getD, List.getElem?_replicate, hi]
        have e3 : (List.replicate n c).getD ((List.replicate n c).length - 3) 0 = c :=
          hget _ (by simp; omega)
        have e1 : (List.replicate n c).getD ((List.replicate n c).length - 1) 0 = c :=
          hget _ (by simp; omega)
        simp only [e3, e1, sub_self, zero_div, if_neg hc]
        norm_num
    · unfold volatility_analysis flat_market_data
      simp only [Option.getD_some]
      rw [if_neg (by simp; omega)]
      have hmem : ¬ (0:ℚ) ∈ (List.replicate n c).dropLast := by
        intro h
        exact hc (List.eq_of_mem_replicate (List.dropLast_subset _ h)).symm
      rw [if_neg hmem]
      obtain ⟨m, rfl⟩ : ∃ m, n = m + 2 := ⟨n - 2, by omega⟩
      have htail : (List.replicate (m + 2) c).tail = List.replicate (m + 1) c := by
        simp [List.replicate_succ]
      rw [htail, zipWith_replicate_min]
      have hfcc : (c - c) / c = 0 := by simp
      rw [hfcc]
      have hmin : min (m + 2) (m + 1) = m + 1 := by omega
      rw [hmin]
      rw [if_neg (by simp)]
      rw [listVar_replicate_zero, ratSqrt_zero]
      norm_num

/-- Witness for `trend_deadzone_and_flat_floor`: a 20-point flat history at
price 1, plus the dead-zone classification on the sample snapshot. -/
theorem trend_deadzone_and_flat_floor_witness :
    (trend_analysis (flat_market_data 1 20) = "sideways"
      ∧ volatility_analysis (flat_market_data 1 20) = 1/10)
    ∧ trend_analysis sample_market_data
        = trend_class_spec
            ((List.replicate 20 (1085/1000)).getD (20 - 3) 0)
            ((List.replicate 20 (1085/1000)).getD (20 - 1) 0) :=
  ⟨trend_deadzone_and_flat_floor.2 1 20 (by norm_num) (by norm_num),
   trend_deadzone_and_flat_floor.1 sample_market_data
     (List.replicate 20 (1085/1000)) rfl (by simp)
     (by simp [List.getD, List.getElem?_replicate])⟩

/-! ### C10 — accuracy tracker invariant -/

/-- Well-formedness of every tracker entry: at least one tracked prediction,
no more correct than total, and the stored ratio is exactly correct/total. -/
def tracker_wf (tr : Tracker) : Prop :=
  ∀ p s, (p, s) ∈ tr →
    s.correct_predictions ≤ s.total_predictions
      ∧ 0 < s.total_predictions
      ∧ s.recent_accuracy
          = (s.correct_predictions : ℚ) / (s.total_predictions : ℚ)

theorem mem_of_lookup_eq_some {α : Type} {k : String} {v : α} :
    ∀ {l : List (String × α)}, List.lookup k l = some v → (k, v) ∈ l := by
  intro l
  induction l with
  | nil => intro h; simp [List.lookup] at h
  | cons hd tl ih =>
    intro h
    obtain ⟨k1, v1⟩ := hd
    cases hbe : (k == k1) with
    | true =>
      simp only [List.lookup, hbe] at h
      have hk : k = k1 := by simpa using hbe
      have hv : v1 = v := by simpa using h
      subst hk
      subst hv
      exact List.mem_cons_self _ _
    | false =>
      simp only [List.lookup, hbe] at h
      exact List.mem_cons_of_mem _ (ih h)

/-- **C10.** Tracking a prediction increments the total of the pair by exactly one
and its correct count by at most one, preserving well-formedness
(`correct ≤ total`, positive total, stored ratio = correct/total); hence
`get_model_accuracy` — per pair or overall — always returns a value in
[0, 1], and returns the default 0.85 when nothing has been tracked. -/
theorem accuracy_tracker_invariant :
    (∀ (tr : Tracker) (pair : String) (pred : Prediction) (b : Bool),
      tracker_wf tr → tracker_wf (track_prediction tr pair pred b))
    ∧ (∀ (tr : Tracker) (pair : String) (pred : Prediction) (b : Bool),
      List.lookup pair (track_prediction tr pair pred b)
        = some
          { total_predictions :=
              ((List.lookup pair tr).getD
                ⟨0, 0, 17/20⟩).total_predictions + 1
            correct_predictions :=
              ((List.lookup pair tr).getD
                ⟨0, 0, 17/20⟩).correct_predictions + (if b then 1 else 0)
            recent_accuracy :=
              ((((List.lookup pair tr).getD
                  ⟨0, 0, 17/20⟩).correct_predictions + (if b then 1 else 0) : ℕ) : ℚ)
                / ((((List.lookup pair tr).getD
                  ⟨0, 0, 17/20⟩).total_predictions + 1 : ℕ) : ℚ) })
    ∧ (∀ (tr : Tracker) (pair : Option String),
      tracker_wf tr →
        0 ≤ get_model_accuracy tr pair ∧ get_model_accuracy tr pair ≤ 1)
    ∧ (∀ pair : Option String, get_model_accuracy [] pair = 17/20) := by
  have hov : ∀ tr : Tracker, tracker_wf tr →
      0 ≤ overall_accuracy tr ∧ overall_accuracy tr ≤ 1 := by
    intro tr hwf
    simp only [overall_accuracy]
    split_ifs with h1 h2
    · norm_num
    · have hle : (tr.map fun p => p.2.correct_predictions).sum
          ≤ (tr.map fun p => p.2.total_predictions).sum := by
        apply List.sum_le_sum
        intro i hi
        exact (hwf i.1 i.2 (by simpa using hi)).1
      constructor
      · exact div_nonneg (Nat.cast_nonneg _) (Nat.cast_nonneg _)
      · rw [div_le_one (by exact_mod_cast h2)]
        exact_mod_cast hle
    · norm_num
  refine ⟨?_, ?_, ?_, ?_⟩
  · intro tr pair pred b hwf p s hmem
    unfold track_prediction dictSet at hmem
    rcases List.mem_cons.mp hmem with heq | hmem2
    · obtain ⟨hp, hs⟩ := Prod.mk.injEq .. ▸ heq
      have hcur : (((List.lookup pair tr).getD
          ⟨0, 0, 17/20⟩).correct_predictions
          ≤ ((List.lookup pair tr).getD ⟨0, 0, 17/20⟩).total_predictions) := by
        cases hl : List.lookup pair tr with
        | none => simp
        | some s0 =>
          simpa using (hwf pair s0 (mem_of_lookup_eq_some hl)).1
      subst hs
      refine ⟨?_, ?_, rfl⟩
      · cases b <;> simp <;> omega
      · simp
    · exact hwf p s (List.mem_of_mem_filter hmem2)
  · intro tr pair pred b
    unfold track_prediction
    rw [lookup_dictSet_self]
  · intro tr pair hwf
    cases pair with
    | none => exact hov tr hwf
    | some p =>
      simp only [get_model_accuracy]
      split_ifs with hp
      · cases hl : List.lookup p tr with
        | none =>
          simp only []
          exact hov tr hwf
        | some s =>
          simp only []
          obtain ⟨h1, h2, h3⟩ := hwf p s (mem_of_lookup_eq_some hl)
          rw [h3]
          constructor
          · exact div_nonneg (Nat.cast_nonneg _) (Nat.cast_nonneg _)
          · rw [div_le_one (by exact_mod_cast h2)]
            exact_mod_cast h1
      · exact hov tr hwf
  · intro pair
    cases pair with
    | none => rfl
    | some p =>
      simp only [get_model_accuracy]
      split_ifs <;> rfl

/-- Witness for `accuracy_tracker_invariant`: the empty tracker is
well-formed, stays well-formed after one tracked prediction, and reports the
0.85 default before anything is tracked. -/
theorem accuracy_tracker_invariant_witness :
    tracker_wf (track_prediction [] "EUR/USD" (default_prediction "PUT" 75) true)
      ∧ (0 ≤ get_model_accuracy [] (some "EUR/USD")
          ∧ get_model_accuracy [] (some "EUR/USD") ≤ 1)
      ∧ get_model_accuracy [] none = 17/20 :=
  ⟨accuracy_tracker_invariant.1 [] "EUR/USD" (default_prediction "PUT" 75) true
      (by intro p s h; simp at h),
   accuracy_tracker_invariant.2.2.1 [] (some "EUR/USD")
      (by intro p s h; simp at h),
   accuracy_tracker_invariant.2.2.2 none⟩
